import Mathlib

/-!
Shallow embedding of the BEMCom connector services.

Embedded sources:
- `services/connectors/mqtt-connector/source/connector/main.py`
  (SensorFlow.parse_raw_msg, ActuatorFlow.send_command, Connector.__init__,
   Connector.parse_topic_mapping, Connector._handle_remote_mqtt_msg,
   Connector.on_remote_connect, Connector.create_remote_mqtt_client,
   Connector.compute_actuator_datapoints).
- `services/APIs/django/django_code/admin_interface/admin.py`
  (ConnectorAdmin.alive).
- The KEBA P30 and socket connector mains are not present in the tree, only
  their tests; the corresponding definitions are modelled from the spec and
  marked as such in their doc comments.

Library calls (json.loads, yaml.load) are modelled as decoder parameters of
type `String → Option _`: `none` stands for a decode failure raised by the
library, `some` for the decoded value.
-/

/-- Severity of a log record emitted through the `pyconnector` logger. -/
inductive LogLevel where
  | debug
  | info
  | warning
deriving DecidableEq, Repr

/-- One log record: its severity and the values interpolated into the
message (for the decode-failure warning these are the topic and payload). -/
structure LogEntry where
  level : LogLevel
  detail : List String
deriving DecidableEq, Repr

/-- JSON values as returned by a decoder such as `json.loads`. -/
inductive Json where
  | null : Json
  | boolVal (b : Bool) : Json
  | num (n : Int) : Json
  | str (s : String) : Json
  | arr (elems : List Json) : Json
  | obj (fields : List (String × Json)) : Json

/-- Raw MQTT message as packed by `SensorFlow.receive_raw_msg`: the topic and
decoded payload of the message from the remote broker, plus the timestamp the
pipeline attached. -/
structure MqttRawMsg where
  topic : String
  payload : String
  timestamp : Nat

/-- Value stored under the topic key of the parsed message: either the JSON
value obtained from `json.loads`, or the payload string left unparsed (when
JSON parsing is disabled, or when it failed and the code continued). -/
inductive PayloadVal where
  | jsonVal (j : Json)
  | strVal (s : String)

/-- Parsed message envelope produced by `SensorFlow.parse_raw_msg`. -/
structure ParsedMsg where
  parsed_message : List (String × PayloadVal)
  timestamp : Nat

/-- Embedding of `SensorFlow.parse_raw_msg` of the MQTT connector.

The source reads topic, payload and timestamp from the raw message; when
`parse_sensor_msgs_as_json` is true it attempts `json.loads(mqtt_payload)`,
and on `JSONDecodeError` logs a warning carrying the topic and the payload and
keeps the unparsed payload string. It then always returns the message
`\x7b"payload": \x7b"parsed_message": \x7btopic: payload\x7d, "timestamp": t\x7d\x7d`.
The second component collects the log records the call emitted. -/
def parse_raw_msg (jsonLoads : String → Option Json)
    (parse_sensor_msgs_as_json : Bool) (raw_msg : MqttRawMsg) :
    ParsedMsg × List LogEntry :=
  if parse_sensor_msgs_as_json then
    match jsonLoads raw_msg.payload with
    | some j =>
        (⟨[(raw_msg.topic, PayloadVal.jsonVal j)], raw_msg.timestamp⟩, [])
    | none =>
        (⟨[(raw_msg.topic, PayloadVal.strVal raw_msg.payload)], raw_msg.timestamp⟩,
         [⟨LogLevel.warning, [raw_msg.topic, raw_msg.payload]⟩])
  else
    (⟨[(raw_msg.topic, PayloadVal.strVal raw_msg.payload)], raw_msg.timestamp⟩, [])

/-- Incoming message on the remote broker connection, as delivered by the
transport to `Connector._handle_remote_mqtt_msg`: paho exposes the topic, the
payload and the retain flag (an integer, 0 meaning not retained). -/
structure RemoteMqttMsg where
  topic : String
  payload : String
  retain : Nat

/-- Embedding of `Connector._handle_remote_mqtt_msg`: returns the list of
`run_sensor_flow` invocations the handler performs for the message (each list
element is the `raw_data` argument of one invocation). The source calls
`run_sensor_flow(raw_data=msg)` exactly once when `msg.retain == 0` and
otherwise only logs that the retained message is skipped. -/
def handle_remote_mqtt_msg (msg : RemoteMqttMsg) : List RemoteMqttMsg :=
  if msg.retain = 0 then [msg] else []

/-- Configuration attached to one actuator topic in
REMOTE_MQTT_BROKER_TOPIC_MAPPING; `compute_actuator_datapoints` reads its
`example_value` field. -/
structure ActuatorTopicCfg where
  example_value : String

/-- The validated topic mapping: a list of sensor topics to bridge and a map
from actuator topic to its configuration. -/
structure TopicMapping where
  sensor_topics : List String
  actuator_topics : List (String × ActuatorTopicCfg)

/-- Embedding of `Connector.parse_topic_mapping`. The argument is the outcome
of `json.loads(os.getenv("REMOTE_MQTT_BROKER_TOPIC_MAPPING"))` on the
configured JSON object: `none` when the setting is not valid JSON (the library
raised `JSONDecodeError`), `some fields` for the decoded object. The source
raises `ValueError` on invalid JSON and when either the `sensor_topics` or the
`actuator_topics` key is absent, and otherwise returns the decoded mapping
unchanged. -/
def parse_topic_mapping :
    Option (List (String × Json)) → Except String (List (String × Json))
  | none =>
      Except.error "REMOTE_MQTT_BROKER_TOPIC_MAPPING is not a valid JSON string."
  | some topic_mapping =>
      if (topic_mapping.map Prod.fst).contains "sensor_topics" = false then
        Except.error "Expected key sensor_topics in REMOTE_MQTT_BROKER_TOPIC_MAPPING."
      else if (topic_mapping.map Prod.fst).contains "actuator_topics" = false then
        Except.error "Expected key actuator_topics in REMOTE_MQTT_BROKER_TOPIC_MAPPING."
      else
        Except.ok topic_mapping

/-- Embedding of `Connector.compute_actuator_datapoints`: one entry per
actuator topic of the topic mapping, keyed by the topic, carrying the
configured `example_value`. -/
def compute_actuator_datapoints (topic_mapping : TopicMapping) :
    List (String × String) :=
  topic_mapping.actuator_topics.map (fun p => (p.1, p.2.example_value))

/-- The available-datapoints registry published to the AdminUI, with its two
subsets. -/
structure AvailableDatapoints where
  sensor : List (String × String)
  actuator : List (String × String)

/-- Embedding of the registry seeding in `Connector.__init__`: the source sets
`kwargs["available_datapoints"] = \x7b"sensor": \x7b\x7d, "actuator":
actuator_datapoints\x7d` with `actuator_datapoints` computed by
`compute_actuator_datapoints` from the topic mapping. -/
def init_available_datapoints (topic_mapping : TopicMapping) :
    AvailableDatapoints :=
  { sensor := [], actuator := compute_actuator_datapoints topic_mapping }

/-- One MQTT subscription request: topic and quality-of-service level. -/
structure Subscription where
  topic : String
  qos : Nat
deriving DecidableEq, Repr

/-- Embedding of `Connector.on_remote_connect`: on return code 0 the source
subscribes to every topic of `topic_mapping["sensor_topics"]` with `qos=2`; on
any other return code it raises `RuntimeError` without subscribing. The result
collects the subscriptions made, or the error raised. -/
def on_remote_connect (rc : Nat) (topic_mapping : TopicMapping) :
    Except String (List Subscription) :=
  if rc = 0 then
    Except.ok (topic_mapping.sensor_topics.map (fun t => ⟨t, 2⟩))
  else
    Except.error "Connection to remote MQTT broker failed."

/-- TLS configuration the client ends up with: the argument of `tls_set`. The
source writes the PEM content of REMOTE_MQTT_BROKER_CA_FILE to a temporary
file and passes its path when content is supplied, and passes `None`
otherwise; `ca_file` records the CA content backing that argument, `none`
standing for the `tls_set(None)` call which, per the source comment, will not
verify the server certificate. -/
structure TlsConfig where
  ca_file : Option String
deriving DecidableEq, Repr

/-- Python truthiness of an environment variable value: unset (`None`) and the
empty string are falsy. -/
def envTruthy : Option String → Bool
  | none => false
  | some s => s ≠ ""

/-- Embedding of the TLS branch of `Connector.create_remote_mqtt_client`.
Arguments are the values of REMOTE_MQTT_BROKER_USE_TLS and
REMOTE_MQTT_BROKER_CA_FILE. Returns the TLS configuration applied to the
client (`none` when TLS is not enabled) and the log records the branch emits:
the source logs `info` records only, and marks the no-CA mode as insecure only
in a code comment. -/
def configure_remote_tls (use_tls_env : Option String) (ca_env : Option String) :
    Option TlsConfig × List LogEntry :=
  if use_tls_env = some "TRUE" then
    if envTruthy ca_env then
      (some { ca_file := ca_env },
       [⟨LogLevel.info, ["Using TLS to encrypt connection."]⟩,
        ⟨LogLevel.info, ["Using CA file to check server certificate."]⟩])
    else
      (some { ca_file := none },
       [⟨LogLevel.info, ["Using TLS to encrypt connection."]⟩])
  else
    (none, [])

/-- Error raised by an unconfigured pluggable function of the connector
template. -/
inductive CommandError where
  | notImplemented (msg : String)
deriving DecidableEq, Repr

/-- Embedding of `ActuatorFlow.send_command` of the MQTT connector: the body
unconditionally raises `NotImplementedError`. -/
def send_command (datapoint_key datapoint_value : String) :
    Except CommandError Unit :=
  Except.error (CommandError.notImplemented "send_command has not been implemented.")

/-- One row of the ConnectorHeartbeat table: the two timestamps of a published
heartbeat message. Timestamps are integers (e.g. microseconds since epoch);
only their order matters to the liveness check. -/
structure ConnectorHeartbeat where
  last_heartbeat : Int
  next_heartbeat : Int

/-- Embedding of the Django query
`ConnectorHeartbeat.objects.filter(connector=...).latest("next_heartbeat")`
projected to its `next_heartbeat` field: the greatest `next_heartbeat` among
the rows of the connector, `none` when the table holds no row for it (Django
raises DoesNotExist there). -/
def latest_next_heartbeat : List ConnectorHeartbeat → Option Int
  | [] => none
  | hb :: rest =>
      match latest_next_heartbeat rest with
      | none => some hb.next_heartbeat
      | some m => some (max hb.next_heartbeat m)

/-- Embedding of `ConnectorAdmin.alive`: fetches the latest row by
`next_heartbeat` and returns `True if current_time <= next_hb else False`;
`none` models the DoesNotExist exception on an empty table. -/
def alive (current_time : Int) (hbs : List ConnectorHeartbeat) : Option Bool :=
  (latest_next_heartbeat hbs).map (fun next_hb => decide (current_time ≤ next_hb))

/-- Modelled from the spec: the KEBA P30 connector main
(`services/connectors/keba-p30-connector/source/connector/main.py`) is absent
from the tree, only its tests are present. Per the spec, construction creates
per-device locks keyed by device name, one distinct mutex per configured
charge station, never a single global lock shared across devices. A mutex is
modelled by its identity. -/
structure KebaMutex where
  lockId : Nat
deriving DecidableEq, Repr

/-- Modelled from the spec: builds the `keba_p30_locks` map of the KEBA P30
connector from the configured charge stations (name, host) by allocating a
fresh mutex per station, keyed by the station name. -/
def keba_p30_locks_from (firstId : Nat) :
    List (String × String) → List (String × KebaMutex)
  | [] => []
  | (name, _host) :: rest =>
      (name, ⟨firstId⟩) :: keba_p30_locks_from (firstId + 1) rest

/-- Modelled from the spec: the lock map created at KEBA P30 connector
construction. -/
def keba_p30_locks (charge_stations : List (String × String)) :
    List (String × KebaMutex) :=
  keba_p30_locks_from 0 charge_stations

/-- Recursively nested mapping with leaf values of type `V` (strings, numbers,
booleans), as decoded by json.loads or yaml.load in the socket connector. -/
inductive Nested (V : Type) where
  | leaf (v : V)
  | node (children : List (String × Nested V))

/-- Modelled from the spec: the socket connector main
(`services/connectors/socket-connector/source/connector/main.py`) is absent
from the tree, only its tests are present. Per the spec and its tests,
`parse_raw_msg` converts every leaf value of the decoded object to its string
representation, leaving the nesting structure intact. -/
def stringifyLeaves {V : Type} (toStr : V → String) : Nested V → Nested String
  | Nested.leaf v => Nested.leaf (toStr v)
  | Nested.node cs =>
      Nested.node (cs.attach.map (fun c => (c.1.1, stringifyLeaves toStr c.1.2)))
termination_by n => sizeOf n
decreasing_by
  have := List.sizeOf_lt_of_mem c.2
  simp only [Nested.node.sizeOf_spec]
  calc sizeOf c.1.2 < sizeOf c.1 := by cases c.1; simp
    _ ≤ sizeOf cs := le_of_lt this
    _ < 1 + sizeOf cs := by omega

/-- Raw message envelope handed to the socket connector `parse_raw_msg`. -/
structure SocketRawMsg where
  raw_message : String
  timestamp : Nat

/-- Parsed message envelope produced by the socket connector `parse_raw_msg`:
the nested structure with stringified leaves, and the unchanged timestamp. -/
structure SocketParsedMsg where
  parsed_message : Nested String
  timestamp : Nat

/-- Modelled from the spec: `parse_raw_msg` of the socket connector in one
parsing mode. The decoder parameter stands for json.loads (PARSE_AS=JSON) or
yaml.load (PARSE_AS=YAML); the raw payload is decoded, every leaf is converted
to its string representation, and the timestamp is carried over unchanged. -/
def socket_parse_raw_msg {V : Type} (decode : String → Option (Nested V))
    (toStr : V → String) (raw : SocketRawMsg) : Option SocketParsedMsg :=
  (decode raw.raw_message).map
    (fun obj => ⟨stringifyLeaves toStr obj, raw.timestamp⟩)

/-- A JSON decoder that fails on every input, standing for json.loads on a
payload that is not valid JSON. -/
def jsonLoadsNone : String → Option Json := fun _ => none

/-- C1: the claim states that when JSON parsing is configured and the payload
is not valid JSON, parse_raw_msg skips the tick and no parsed message derived
from the payload is produced. False: at a concrete failing payload the decode
error is caught and logged, but parse_raw_msg still returns a parsed message
that maps the topic to the unparsed payload string. -/
theorem C1_counterexample :
    jsonLoadsNone "not json" = none ∧
    (parse_raw_msg jsonLoadsNone true ⟨"tele/t", "not json", 5⟩).1 =
      ⟨[("tele/t", PayloadVal.strVal "not json")], 5⟩ ∧
    ¬ (parse_raw_msg jsonLoadsNone true ⟨"tele/t", "not json", 5⟩).1.parsed_message
        = [] := by
  refine ⟨rfl, rfl, ?_⟩
  intro h
  simp [parse_raw_msg, jsonLoadsNone] at h

/-- C1 (amended): for every raw MQTT message whose configured JSON parsing
fails, parse_raw_msg catches the decode error and logs a warning carrying the
offending topic and payload, but the tick is not skipped: it returns a parsed
message mapping the topic to the unparsed payload string, with the timestamp
unchanged. -/
theorem C1_decode_error_logged_tick_continues
    (jsonLoads : String → Option Json) (raw_msg : MqttRawMsg)
    (h : jsonLoads raw_msg.payload = none) :
    parse_raw_msg jsonLoads true raw_msg =
      (⟨[(raw_msg.topic, PayloadVal.strVal raw_msg.payload)], raw_msg.timestamp⟩,
       [⟨LogLevel.warning, [raw_msg.topic, raw_msg.payload]⟩]) := by
  simp [parse_raw_msg, h]

/-- Witness for C1: the amended theorem applied at a concrete failing
payload. -/
theorem C1_decode_error_logged_tick_continues_witness :
    jsonLoadsNone "x" = none ∧
    parse_raw_msg jsonLoadsNone true ⟨"t", "x", 7⟩ =
      (⟨[("t", PayloadVal.strVal "x")], 7⟩,
       [⟨LogLevel.warning, ["t", "x"]⟩]) :=
  ⟨rfl, C1_decode_error_logged_tick_continues jsonLoadsNone ⟨"t", "x", 7⟩ rfl⟩

/-- C2: for every message delivered by the remote broker to
_handle_remote_mqtt_msg, a set retain flag means run_sensor_flow is never
invoked, and a clear retain flag means run_sensor_flow is invoked exactly once
with that message as raw_data. -/
theorem C2_retained_discarded (msg : RemoteMqttMsg) :
    (msg.retain ≠ 0 → handle_remote_mqtt_msg msg = []) ∧
    (msg.retain = 0 → handle_remote_mqtt_msg msg = [msg]) := by
  constructor <;> intro h <;> simp [handle_remote_mqtt_msg, h]

/-- Witness for C2: a retained and a non-retained concrete message. -/
theorem C2_retained_discarded_witness :
    ((1 : Nat) ≠ 0 ∧ handle_remote_mqtt_msg ⟨"a", "p", 1⟩ = []) ∧
    ((0 : Nat) = 0 ∧ handle_remote_mqtt_msg ⟨"a", "p", 0⟩ = [⟨"a", "p", 0⟩]) :=
  ⟨⟨one_ne_zero, (C2_retained_discarded ⟨"a", "p", 1⟩).1 one_ne_zero⟩,
   ⟨rfl, (C2_retained_discarded ⟨"a", "p", 0⟩).2 rfl⟩⟩

/-- C3: at construction the available-datapoints registry contains both
subsets; the sensor subset is empty and the actuator subset holds exactly one
entry per configured actuator topic, mapping the topic to its configured
example value. -/
theorem C3_init_registry (tm : TopicMapping) :
    (init_available_datapoints tm).sensor = [] ∧
    (init_available_datapoints tm).actuator =
      tm.actuator_topics.map (fun p => (p.1, p.2.example_value)) ∧
    (init_available_datapoints tm).actuator.length = tm.actuator_topics.length ∧
    ∀ topic cfg, (topic, cfg) ∈ tm.actuator_topics →
      (topic, cfg.example_value) ∈ (init_available_datapoints tm).actuator := by
  refine ⟨rfl, rfl, ?_, ?_⟩
  · simp [init_available_datapoints, compute_actuator_datapoints]
  · intro topic cfg hmem
    exact List.mem_map.mpr ⟨(topic, cfg), hmem, rfl⟩

/-- Concrete topic mapping used by the witness of C3. -/
def topicMappingW : TopicMapping :=
  ⟨["tele/plug/SENSOR"], [("cmnd/plug/POWER", ⟨"ON"⟩)]⟩

/-- Witness for C3: the theorem applied at a concrete topic mapping with one
actuator topic. -/
theorem C3_init_registry_witness :
    (init_available_datapoints topicMappingW).sensor = [] ∧
    ("cmnd/plug/POWER", ActuatorTopicCfg.mk "ON") ∈ topicMappingW.actuator_topics ∧
    ("cmnd/plug/POWER", "ON") ∈ (init_available_datapoints topicMappingW).actuator :=
  ⟨(C3_init_registry topicMappingW).1,
   List.mem_singleton.mpr rfl,
   (C3_init_registry topicMappingW).2.2.2 "cmnd/plug/POWER" ⟨"ON"⟩
     (List.mem_singleton.mpr rfl)⟩

/-- C8: the claim states that an unconfigured send_command is fatal at startup
validation and command handling never reaches a NotImplementedError. False:
the MQTT connector constructs without any such validation and send_command
raises NotImplementedError at a concrete runtime invocation. -/
theorem C8_counterexample :
    send_command "cmnd/plug/POWER" "1" =
      Except.error
        (CommandError.notImplemented "send_command has not been implemented.") :=
  rfl

/-- C8 (amended): an unconfigured send_command is not detected at startup;
every runtime invocation of send_command during command handling raises
NotImplementedError. -/
theorem C8_not_implemented_at_runtime :
    ∀ datapoint_key datapoint_value : String,
      send_command datapoint_key datapoint_value =
        Except.error
          (CommandError.notImplemented "send_command has not been implemented.") :=
  fun _ _ => rfl

/-- C4: an invalid-JSON topic-mapping setting and a decoded mapping missing
the sensor_topics or the actuator_topics key each make parse_topic_mapping
raise a ValueError at startup; when it succeeds, both keys are present and the
mapping is returned unchanged, never silently defaulted. -/
theorem C4_topic_mapping_validated :
    (parse_topic_mapping none).isOk = false ∧
    ∀ tm : List (String × Json),
      ((tm.map Prod.fst).contains "sensor_topics" = false →
        (parse_topic_mapping (some tm)).isOk = false) ∧
      ((tm.map Prod.fst).contains "actuator_topics" = false →
        (parse_topic_mapping (some tm)).isOk = false) ∧
      (∀ r, parse_topic_mapping (some tm) = Except.ok r →
        r = tm ∧ (tm.map Prod.fst).contains "sensor_topics" = true ∧
          (tm.map Prod.fst).contains "actuator_topics" = true) := by
  refine ⟨rfl, ?_⟩
  intro tm
  refine ⟨?_, ?_, ?_⟩
  · intro h
    simp only [parse_topic_mapping]
    rw [if_pos h]
    rfl
  · intro h
    simp only [parse_topic_mapping]
    cases hs : (tm.map Prod.fst).contains "sensor_topics" with
    | false =>
      rw [if_pos rfl]
      rfl
    | true =>
      rw [if_neg (by simp), if_pos h]
      rfl
  · intro r hr
    simp only [parse_topic_mapping] at hr
    cases hs : (tm.map Prod.fst).contains "sensor_topics" with
    | false =>
      rw [hs, if_pos rfl] at hr
      exact Except.noConfusion hr
    | true =>
      rw [hs, if_neg (by simp)] at hr
      cases ha : (tm.map Prod.fst).contains "actuator_topics" with
      | false =>
        rw [ha, if_pos rfl] at hr
        exact Except.noConfusion hr
      | true =>
        rw [ha, if_neg (by simp)] at hr
        have htm : tm = r := Except.ok.inj hr
        exact ⟨htm.symm, rfl, rfl⟩

/-- Decoded topic mapping holding both required keys, for the witness of
C4. -/
def topicMappingJsonW : List (String × Json) :=
  [("sensor_topics", Json.arr []), ("actuator_topics", Json.obj [])]

/-- Witness for C4: the theorem applied to a mapping missing both keys and to
a mapping holding both. -/
theorem C4_topic_mapping_validated_witness :
    (parse_topic_mapping none).isOk = false ∧
    ((([] : List (String × Json)).map Prod.fst).contains "sensor_topics" = false ∧
      (parse_topic_mapping (some [])).isOk = false) ∧
    (parse_topic_mapping (some topicMappingJsonW) = Except.ok topicMappingJsonW ∧
      topicMappingJsonW = topicMappingJsonW) :=
  ⟨C4_topic_mapping_validated.1,
   ⟨rfl, (C4_topic_mapping_validated.2 []).1 rfl⟩,
   ⟨rfl, ((C4_topic_mapping_validated.2 topicMappingJsonW).2.2
      topicMappingJsonW rfl).1⟩⟩

/-- C5: the claim states that TLS with no CA content accepts any certificate
and that this insecure mode is logged as a warning. False: at the concrete
no-CA input the client is configured with tls_set(None), but the branch emits
only an info record and no warning-level log record at all. -/
theorem C5_counterexample :
    configure_remote_tls (some "TRUE") none =
      (some ⟨none⟩, [⟨LogLevel.info, ["Using TLS to encrypt connection."]⟩]) ∧
    ¬ ∃ e ∈ (configure_remote_tls (some "TRUE") none).2,
        e.level = LogLevel.warning := by
  refine ⟨rfl, ?_⟩
  rintro ⟨e, hmem, hlev⟩
  simp [configure_remote_tls, envTruthy] at hmem
  rw [hmem] at hlev
  exact absurd hlev (by simp)

/-- C5 (amended): when TLS is enabled, supplied CA content configures the
client to verify the broker certificate against that CA; absent CA content
configures tls_set(None), which per the source comment accepts any
certificate, and this insecure mode is noted only in a code comment: the
branch emits info records only, never a warning. -/
theorem C5_tls_modes (ca_env : Option String) :
    (∀ s, ca_env = some s → s ≠ "" →
      configure_remote_tls (some "TRUE") ca_env =
        (some ⟨some s⟩,
         [⟨LogLevel.info, ["Using TLS to encrypt connection."]⟩,
          ⟨LogLevel.info, ["Using CA file to check server certificate."]⟩])) ∧
    (envTruthy ca_env = false →
      configure_remote_tls (some "TRUE") ca_env =
        (some ⟨none⟩, [⟨LogLevel.info, ["Using TLS to encrypt connection."]⟩]) ∧
      ∀ e ∈ (configure_remote_tls (some "TRUE") ca_env).2,
        e.level ≠ LogLevel.warning) := by
  constructor
  · intro s hs hne
    subst hs
    simp [configure_remote_tls, envTruthy, hne]
  · intro h
    refine ⟨by simp [configure_remote_tls, h], ?_⟩
    intro e he
    simp [configure_remote_tls, h] at he
    rw [he]
    simp

/-- Witness for C5: the amended theorem applied with concrete CA content and
with no CA content. -/
theorem C5_tls_modes_witness :
    ((some "capem" : Option String) = some "capem" ∧ ("capem" : String) ≠ "" ∧
      configure_remote_tls (some "TRUE") (some "capem") =
        (some ⟨some "capem"⟩,
         [⟨LogLevel.info, ["Using TLS to encrypt connection."]⟩,
          ⟨LogLevel.info, ["Using CA file to check server certificate."]⟩])) ∧
    (envTruthy none = false ∧
      configure_remote_tls (some "TRUE") none =
        (some ⟨none⟩, [⟨LogLevel.info, ["Using TLS to encrypt connection."]⟩])) :=
  ⟨⟨rfl, by decide,
    (C5_tls_modes (some "capem")).1 "capem" rfl (by decide)⟩,
   ⟨rfl, ((C5_tls_modes none).2 rfl).1⟩⟩

/-- C7: on a successful connection (return code 0) the connector subscribes to
every configured sensor topic with quality-of-service 2; on a non-zero return
code no subscription is made and a fatal error is raised. -/
theorem C7_connect_subscriptions (rc : Nat) (tm : TopicMapping) :
    (rc = 0 →
      on_remote_connect rc tm =
        Except.ok (tm.sensor_topics.map (fun t => Subscription.mk t 2))) ∧
    (rc ≠ 0 →
      (on_remote_connect rc tm).isOk = false ∧
      ∀ subs, on_remote_connect rc tm ≠ Except.ok subs) := by
  constructor
  · intro h
    simp [on_remote_connect, h]
  · intro h
    refine ⟨?_, ?_⟩
    · unfold on_remote_connect
      rw [if_neg h]
      rfl
    · intro subs hc
      unfold on_remote_connect at hc
      rw [if_neg h] at hc
      exact Except.noConfusion hc

/-- Concrete topic mapping used by the witness of C7. -/
def topicMappingW7 : TopicMapping :=
  ⟨["tele/meter/SENSOR", "tele/meter/STATE"], []⟩

/-- Witness for C7: the theorem applied at return codes 0 and 5 with a
concrete topic mapping. -/
theorem C7_connect_subscriptions_witness :
    ((0 : Nat) = 0 ∧
      on_remote_connect 0 topicMappingW7 =
        Except.ok [Subscription.mk "tele/meter/SENSOR" 2,
          Subscription.mk "tele/meter/STATE" 2]) ∧
    ((5 : Nat) ≠ 0 ∧ (on_remote_connect 5 topicMappingW7).isOk = false) :=
  ⟨⟨rfl, (C7_connect_subscriptions 0 topicMappingW7).1 rfl⟩,
   ⟨by decide, ((C7_connect_subscriptions 5 topicMappingW7).2 (by decide)).1⟩⟩

/-- When the next-heartbeat values are pairwise nondecreasing in publication
order, the row Django picks by greatest next_heartbeat is the most recently
published one. -/
lemma latest_next_heartbeat_append_singleton
    (init : List ConnectorHeartbeat) (hbLast : ConnectorHeartbeat)
    (hp : List.Pairwise (fun a b => a.next_heartbeat ≤ b.next_heartbeat)
      (init ++ [hbLast])) :
    latest_next_heartbeat (init ++ [hbLast]) = some hbLast.next_heartbeat := by
  induction init with
  | nil => simp [latest_next_heartbeat]
  | cons hb rest ih =>
    rw [List.cons_append]
    have hp' := List.pairwise_cons.mp (by rw [List.cons_append] at hp; exact hp)
    have hrec := ih hp'.2
    simp only [latest_next_heartbeat, hrec]
    have hle : hb.next_heartbeat ≤ hbLast.next_heartbeat :=
      hp'.1 hbLast (by simp)
    exact congrArg some (max_eq_right hle)

/-- C6: the liveness check is exactly the heartbeat criterion: alive returns
True precisely when the evaluation time does not exceed the latest published
next_heartbeat, and False otherwise; under chronologically nondecreasing
next-heartbeat values, that latest value is the most recently published
one. -/
theorem C6_alive_iff_heartbeat (current_time : Int)
    (hbs : List ConnectorHeartbeat) (m : Int)
    (h : latest_next_heartbeat hbs = some m) :
    (alive current_time hbs = some true ↔ current_time ≤ m) ∧
    (alive current_time hbs = some false ↔ ¬ current_time ≤ m) ∧
    ∀ (init : List ConnectorHeartbeat) (hbLast : ConnectorHeartbeat),
      hbs = init ++ [hbLast] →
      List.Chain' (fun a b => a.next_heartbeat ≤ b.next_heartbeat) hbs →
      m = hbLast.next_heartbeat := by
  refine ⟨?_, ?_, ?_⟩
  · simp [alive, h]
  · simp [alive, h]
  · intro init hbLast hEq hChain
    subst hEq
    letI : IsTrans ConnectorHeartbeat
        (fun a b => a.next_heartbeat ≤ b.next_heartbeat) :=
      ⟨fun _ _ _ hab hbc => le_trans hab hbc⟩
    have hp := List.chain'_iff_pairwise.mp hChain
    have hlast := latest_next_heartbeat_append_singleton init hbLast hp
    rw [hlast] at h
    exact (Option.some.inj h).symm

/-- Concrete heartbeat history used by the witness of C6. -/
def heartbeatsW : List ConnectorHeartbeat := [⟨0, 10⟩, ⟨10, 20⟩]

/-- Witness for C6: the theorem applied at a concrete two-row heartbeat
history and evaluation time. -/
theorem C6_alive_iff_heartbeat_witness :
    latest_next_heartbeat heartbeatsW = some 20 ∧
    (alive 15 heartbeatsW = some true ↔ (15 : Int) ≤ 20) ∧
    heartbeatsW = [⟨0, 10⟩] ++ [⟨10, 20⟩] ∧
    List.Chain' (fun a b => a.next_heartbeat ≤ b.next_heartbeat) heartbeatsW ∧
    (20 : Int) = (ConnectorHeartbeat.mk 10 20).next_heartbeat := by
  have hChain :
      List.Chain' (fun a b => a.next_heartbeat ≤ b.next_heartbeat) heartbeatsW := by
    simp [heartbeatsW, List.chain'_cons]
  exact ⟨rfl, (C6_alive_iff_heartbeat 15 heartbeatsW 20 rfl).1, rfl, hChain,
    (C6_alive_iff_heartbeat 15 heartbeatsW 20 rfl).2.2 [⟨0, 10⟩] ⟨10, 20⟩ rfl hChain⟩

/-- Keys of the lock map are exactly the configured charge station names, in
order. -/
lemma keba_locks_from_keys (i : Nat) (cs : List (String × String)) :
    (keba_p30_locks_from i cs).map Prod.fst = cs.map Prod.fst := by
  induction cs generalizing i with
  | nil => rfl
  | cons c rest ih =>
    obtain ⟨name, host⟩ := c
    simp [keba_p30_locks_from, ih]

/-- Every mutex allocated from start id i has an id at least i. -/
lemma keba_locks_from_id_ge (i : Nat) (cs : List (String × String))
    (m : KebaMutex) (hm : m ∈ (keba_p30_locks_from i cs).map Prod.snd) :
    i ≤ m.lockId := by
  induction cs generalizing i with
  | nil => simp [keba_p30_locks_from] at hm
  | cons c rest ih =>
    obtain ⟨name, host⟩ := c
    simp only [keba_p30_locks_from, List.map_cons, List.mem_cons] at hm
    cases hm with
    | inl h0 =>
      rw [h0]
    | inr h0 =>
      exact le_trans (Nat.le_succ i) (ih (i + 1) h0)

/-- The mutexes allocated for the charge stations are pairwise distinct. -/
lemma keba_locks_from_nodup (i : Nat) (cs : List (String × String)) :
    ((keba_p30_locks_from i cs).map Prod.snd).Nodup := by
  induction cs generalizing i with
  | nil => simp [keba_p30_locks_from]
  | cons c rest ih =>
    obtain ⟨name, host⟩ := c
    simp only [keba_p30_locks_from, List.map_cons, List.nodup_cons]
    refine ⟨?_, ih (i + 1)⟩
    intro hmem
    have hge := keba_locks_from_id_ge (i + 1) rest ⟨i⟩ hmem
    simp at hge

/-- C9: construction creates a lock map keyed by the configured charge station
names, with exactly one entry per station in configuration order, and the
mutexes are pairwise distinct: never a single shared global lock. -/
theorem C9_per_device_locks (charge_stations : List (String × String)) :
    (keba_p30_locks charge_stations).map Prod.fst =
      charge_stations.map Prod.fst ∧
    ((keba_p30_locks charge_stations).map Prod.snd).Nodup :=
  ⟨keba_locks_from_keys 0 charge_stations,
   keba_locks_from_nodup 0 charge_stations⟩

/-- C10: the JSON and YAML parsing modes of the socket connector parse_raw_msg
agree on common inputs: decoding the respective serialization of the same
nested object yields the same parsed envelope, with every leaf converted to
its string representation and the timestamp preserved unchanged. -/
theorem C10_json_yaml_modes_agree {V : Type} (toStr : V → String)
    (decodeJson decodeYaml : String → Option (Nested V))
    (encodeJson encodeYaml : Nested V → String)
    (obj : Nested V) (ts : Nat)
    (hJ : decodeJson (encodeJson obj) = some obj)
    (hY : decodeYaml (encodeYaml obj) = some obj) :
    socket_parse_raw_msg decodeJson toStr ⟨encodeJson obj, ts⟩ =
      socket_parse_raw_msg decodeYaml toStr ⟨encodeYaml obj, ts⟩ ∧
    socket_parse_raw_msg decodeJson toStr ⟨encodeJson obj, ts⟩ =
      some ⟨stringifyLeaves toStr obj, ts⟩ := by
  constructor <;> simp [socket_parse_raw_msg, hJ, hY]

/-- Concrete nested object used by the witness of C10, mirroring the shape of
the test payloads. -/
def sampleNested : Nested Nat :=
  Nested.node [("dummy_dp", Nested.node [("sensor_1", Nested.leaf 2)])]

/-- A decoder that recovers sampleNested from its serialization, standing for
json.loads and yaml.load on round-tripped input. -/
def sampleDecode : String → Option (Nested Nat) := fun _ => some sampleNested

/-- A serializer for sampleNested. -/
def sampleEncode : Nested Nat → String := fun _ => "payload"

/-- Witness for C10: the theorem applied at a concrete nested object with
concrete round-tripping decoders. -/
theorem C10_json_yaml_modes_agree_witness :
    sampleDecode (sampleEncode sampleNested) = some sampleNested ∧
    (socket_parse_raw_msg sampleDecode toString ⟨sampleEncode sampleNested, 3⟩ =
      socket_parse_raw_msg sampleDecode toString ⟨sampleEncode sampleNested, 3⟩ ∧
     socket_parse_raw_msg sampleDecode toString ⟨sampleEncode sampleNested, 3⟩ =
      some ⟨stringifyLeaves toString sampleNested, 3⟩) :=
  ⟨rfl, C10_json_yaml_modes_agree toString sampleDecode sampleDecode
    sampleEncode sampleEncode sampleNested 3 rfl rfl⟩
